import Mathlib

/-!
Shallow embedding of `src/main.py` (VultraMessageCourier).

The program relays Discord messages to X.  Its core state is a set of module
globals guarded by `state_lock`: the mapping `discord_message_to_x_post_map`,
the counters `posts_attempted` / `posts_succeeded` / `posts_failed`, the
status strings and the `recent_activity` deque (maxlen 10).  We embed that
state as the structure `St`, the remote collaborators (requests download,
tweepy media upload, tweet creation) as an oracle environment `XEnv`, and the
functions `load_state`, `save_state`, `save_mapping_entry`, `get_x_post_id`,
`add_activity`, `post_to_x` and `on_message` as pure state transformers.
Network calls issued by a run are returned explicitly as a `List NetCall`
trace so that claims about "no network call" are statable.

The persisted JSON document is modelled at the level of a structured JSON
value (`JVal`); the file holds the document produced by `json.dump`, and
`json.load` returns it unchanged, so serialisation itself is the identity on
`JVal` here.
-/

set_option linter.unusedVariables false

deriving instance DecidableEq for Except
set_option linter.unnecessarySeqFocus false

/-- One media attachment of an inbound Discord message: `attachment.filename`,
`attachment.size`, `attachment.url` as used by `post_to_x`. -/
structure Attachment where
  filename : String
  size : Nat
  url : String
deriving DecidableEq

/-- The Python exception classes distinguished by the handlers in `main.py`:
`requests.exceptions.RequestException`, `tweepy.errors.TweepyException`, and
any other `Exception`. -/
inductive PyKind
  | requests
  | tweepy
  | generic
deriving DecidableEq

/-- A raised Python exception as the handlers observe it: its class name
(`type(e).__name__`), its class (for `isinstance` dispatch), `str(e)`, and
`e.api_messages` (nonempty only for tweepy API exceptions carrying server
messages). -/
structure PyExn where
  name : String
  kind : PyKind
  message : String
  apiMessages : List String
deriving DecidableEq

/-- The keyword arguments assembled for `client_v2.create_tweet`:
`text`, `media_ids` (the empty list models the absent key) and
`in_reply_to_tweet_id`. -/
structure TweetParams where
  text : String
  mediaIds : List String
  inReplyTo : Option String
deriving DecidableEq

/-- One outbound network call performed by `post_to_x`: a `requests.get`
media download, an `api_v1.media_upload`, or a `client_v2.create_tweet`. -/
inductive NetCall
  | download (url : String)
  | upload (filename : String)
  | createTweet (params : TweetParams)
deriving DecidableEq

/-- One entry of the `recent_activity` deque, as built by `add_activity`:
`timestamp`, `type`, `status`, `details`. -/
structure ActivityRec where
  timestamp : Nat
  ty : String
  status : String
  details : String
deriving DecidableEq

/-- Structured JSON values, enough for the persisted state document
(an object of a string-to-string object plus three integer counters). -/
inductive JVal
  | str (s : String)
  | num (n : Nat)
  | obj (fields : List (String × JVal))

/-- The module-global state of `main.py` guarded by `state_lock`, plus the
backing store: `saved_doc` is the current content of the state file (`none`
when the file does not exist) and `save_count` counts completed `save_state`
calls so that "persisted exactly once" is statable. -/
structure St where
  discord_message_to_x_post_map : List (String × String)
  posts_attempted : Nat
  posts_succeeded : Nat
  posts_failed : Nat
  last_x_api_status : String
  last_x_api_timestamp : Option Nat
  recent_activity : List ActivityRec
  saved_doc : Option JVal
  save_count : Nat

/-- The external collaborators of `post_to_x` as a deterministic oracle:
whether the two tweepy clients initialised (`client_v2` / `api_v1` not
`None`), the outcome of each media download (`requests.get` +
`raise_for_status`), each `api_v1.media_upload`, each
`client_v2.create_tweet`, and the current clock (`time.time()`). -/
structure XEnv where
  clientV2 : Bool
  apiV1 : Bool
  download : Attachment → Except PyExn Unit
  upload : Attachment → Except PyExn String
  createTweet : TweetParams → Except PyExn String
  now : Nat

/-- Result of a publish pipeline run: the value returned by `post_to_x`
(`new_tweet_id` or `None`), the final global state, and the trace of
outbound network calls made. -/
structure PubResult where
  result : Option String
  st : St
  calls : List NetCall

/-! ### String helpers (character-level models of the Python string ops) -/

/-- `str(e).replace('\n', ' ')`: replace every newline character by a
space.  Single-character replacement is a character map. -/
def replaceNewlines (s : String) : String :=
  String.mk (s.data.map (fun c => if c = '\n' then ' ' else c))

/-- Python slicing `s[:n]`: the first `n` characters of `s`. -/
def strTake (s : String) (n : Nat) : String :=
  String.mk (s.data.take n)

/-- `leadsWith pat s`: `pat` is a prefix of `s` (character lists). -/
def leadsWith : List Char → List Char → Bool
  | [], _ => true
  | _ :: _, [] => false
  | a :: as, b :: bs => a == b && leadsWith as bs

/-- `occursIn pat s`: `pat` occurs as a contiguous run inside `s`. -/
def occursIn (pat : List Char) : List Char → Bool
  | [] => leadsWith pat []
  | b :: bs => leadsWith pat (b :: bs) || occursIn pat bs

/-- Python's `pat in s` substring test. -/
def strContains (s pat : String) : Bool :=
  occursIn pat.data s.data

/-! ### Mapping dictionary (Python `dict` with string keys) -/

/-- `dict.get`: first (and, under dict semantics, only) binding of `k`. -/
def mapLookup : List (String × String) → String → Option String
  | [], _ => none
  | (k', v) :: rest, k => if k' = k then some v else mapLookup rest k

/-- `d[k] = v`: replace the binding of `k` in place, or append it. -/
def mapInsert : List (String × String) → String → String → List (String × String)
  | [], k, v => [(k, v)]
  | (k', v') :: rest, k, v =>
    if k' = k then (k, v) :: rest else (k', v') :: mapInsert rest k v

/-- A Discord message id as passed to the store interface: the call sites
pass `int` message ids, but the interface accepts strings too; both ends
normalise with `str(...)`. -/
inductive SrcId
  | intId (n : Nat)
  | strId (s : String)
deriving DecidableEq

/-- Python `str(...)` on a source id. -/
def idStr : SrcId → String
  | SrcId.intId n => toString n
  | SrcId.strId s => s

/-! ### Persistence (`state_doc` / `save_state` / `load_state`, file backend) -/

/-- The JSON document built by `save_state` (file branch, lines 141-146):
the whole mapping plus the three counters. -/
def state_doc (st : St) : JVal :=
  JVal.obj
    [("discord_message_to_x_post_map",
        JVal.obj (st.discord_message_to_x_post_map.map (fun p => (p.1, JVal.str p.2)))),
     ("posts_attempted", JVal.num st.posts_attempted),
     ("posts_succeeded", JVal.num st.posts_succeeded),
     ("posts_failed", JVal.num st.posts_failed)]

/-- `save_state` (lines 126-153): rewrite the whole backing document from the
current in-memory state.  In-memory globals are untouched. -/
def save_state (st : St) : St :=
  { st with saved_doc := some (state_doc st), save_count := st.save_count + 1 }

/-- `loaded_data.get(k, default)`: first field named `k` of a JSON object. -/
def jGet : List (String × JVal) → String → Option JVal
  | [], _ => none
  | (k', v) :: rest, k => if k' = k then some v else jGet rest k

/-- Decode the mapping field of the loaded document; absent field defaults to
the empty dict (`.get(..., {})`).  The program only ever stores string
values, so only string values are retained. -/
def decodeMapField : Option JVal → List (String × String)
  | some (JVal.obj fs) =>
      fs.filterMap (fun p => match p.2 with | JVal.str s => some (p.1, s) | _ => none)
  | _ => []

/-- Decode a counter field of the loaded document; absent field defaults to
`0` (`.get(..., 0)`). -/
def decodeNumField : Option JVal → Nat
  | some (JVal.num n) => n
  | _ => 0

/-- `load_state` (file branch, lines 103-124): read the whole document; a
missing file (`FileNotFoundError`) or a non-object document (decode error)
degrades to the fresh empty state.  Returns
`(mapping, posts_attempted, posts_succeeded, posts_failed)`. -/
def load_state : Option JVal → List (String × String) × Nat × Nat × Nat
  | none => ([], 0, 0, 0)
  | some (JVal.obj fs) =>
      (decodeMapField (jGet fs "discord_message_to_x_post_map"),
       decodeNumField (jGet fs "posts_attempted"),
       decodeNumField (jGet fs "posts_succeeded"),
       decodeNumField (jGet fs "posts_failed"))
  | some _ => ([], 0, 0, 0)

/-- `save_mapping_entry` (lines 155-159): under the lock, bind
`str(discord_msg_id)` to `x_post_id` in the mapping, then save the whole
state. -/
def save_mapping_entry (discord_msg_id : SrcId) (x_post_id : String) (st : St) : St :=
  save_state
    { st with discord_message_to_x_post_map :=
        mapInsert st.discord_message_to_x_post_map (idStr discord_msg_id) x_post_id }

/-- `get_x_post_id` (lines 161-164): look up `str(discord_msg_id)`. -/
def get_x_post_id (discord_msg_id : SrcId) (st : St) : Option String :=
  mapLookup st.discord_message_to_x_post_map (idStr discord_msg_id)

/-- `add_activity` (lines 167-180): push a record on the left of the
`deque(maxlen=10)`; on overflow the deque silently drops its rightmost
(oldest) element, i.e. prepend then keep the first 10. -/
def add_activity (now : Nat) (activity_type status details : String) (st : St) : St :=
  { st with recent_activity :=
      ({ timestamp := now, ty := activity_type, status := status, details := details }
        :: st.recent_activity).take 10 }

/-- Iterated `add_activity`, one call per record, oldest first. -/
def fold_add (es : List ActivityRec) (st : St) : St :=
  es.foldl (fun s e => add_activity e.timestamp e.ty e.status e.details s) st

/-! ### `post_to_x` (lines 209-313) -/

/-- `f"Discord ID: {discord_message_id}" if discord_message_id else
"Unknown Discord ID"` (line 222); Python truthiness makes both `None` and
`0` fall to the fallback. -/
def statusDetail (discord_message_id : Option Nat) : String :=
  match discord_message_id with
  | some n => if n = 0 then "Unknown Discord ID" else "Discord ID: " ++ toString n
  | none => "Unknown Discord ID"

/-- Python `str()` of an optional int inside an f-string (line 216 formats
the raw value, printing `None` when absent). -/
def pyStr : Option Nat → String
  | some n => toString n
  | none => "None"

/-- Python truthiness of an optional string (`if reply_to_x_id:` etc.):
`None` and the empty string are falsy. -/
def optStrTruthy : Option String → Bool
  | some s => s != ""
  | none => false

/-- The media loop's per-attachment `except` clauses (lines 254-262): the
exception raised from the `try` body is re-raised as a plain `Exception`
whose message names the failing stage, dispatched on the exception class. -/
def mediaErr (e : PyExn) (att : Attachment) : PyExn :=
  match e.kind with
  | PyKind.requests =>
      { name := "Exception", kind := PyKind.generic,
        message := "Media Download Failed: " ++ att.filename, apiMessages := [] }
  | PyKind.tweepy =>
      { name := "Exception", kind := PyKind.generic,
        message := "Media Upload Failed: " ++ att.filename, apiMessages := [] }
  | PyKind.generic =>
      { name := "Exception", kind := PyKind.generic,
        message := "Media Processing Failed: " ++ att.filename, apiMessages := [] }

/-- The media-relay loop inside `post_to_x` (lines 229-262):
walk the attachments; once `processed_media_count` reaches 4, `break`;
otherwise download then upload, collect `media_id_string`s in order, and
abort the whole relay on the first failure.  Returns the network-call trace
and either the ordered media-id list or the re-raised exception. -/
def media_relay (env : XEnv) :
    List Attachment → Nat → List String → List NetCall × Except PyExn (List String)
  | [], _, acc => ([], Except.ok acc)
  | att :: rest, count, acc =>
    if 4 ≤ count then ([], Except.ok acc)
    else
      match env.download att with
      | Except.error e => ([NetCall.download att.url], Except.error (mediaErr e att))
      | Except.ok _ =>
        match env.upload att with
        | Except.error e =>
            ([NetCall.download att.url, NetCall.upload att.filename],
             Except.error (mediaErr e att))
        | Except.ok mid =>
            let r := media_relay env rest (count + 1) (acc ++ [mid])
            (NetCall.download att.url :: NetCall.upload att.filename :: r.1, r.2)

/-- The download/upload calls the relay makes for a list of attachments when
every entry succeeds, in input order. -/
def relayCalls : List Attachment → List NetCall
  | [] => []
  | att :: rest => NetCall.download att.url :: NetCall.upload att.filename :: relayCalls rest

/-- The guard `isinstance(e, TweepyException) and hasattr(e, 'api_messages')
and e.api_messages` (line 297). -/
def usesApiMessages (e : PyExn) : Bool :=
  match e.kind, e.apiMessages with
  | PyKind.tweepy, _ :: _ => true
  | _, _ => false

/-- The truncated error summary built in the `except` block of `post_to_x`
(lines 296-300): the API's first message for tweepy exceptions carrying one,
else type plus the first 70 characters of the newline-stripped message, else
just the type. -/
def shortError (e : PyExn) : String :=
  if usesApiMessages e then e.name ++ ": " ++ e.apiMessages.headD ""
  else if 0 < (replaceNewlines e.message).length then
    e.name ++ ": " ++ strTake (replaceNewlines e.message) 70 ++ "..."
  else e.name

/-- The failure tail of `post_to_x`'s `except` block (lines 302-313):
append the error summary to the detail line unless it already carries one,
bump `posts_failed`, set the API status, record one Failure activity, and
persist. -/
def failPath (now : Nat) (e : PyExn) (info : String) (ts : Nat) (st : St) : St :=
  let info2 := if strContains info "Error:" then info
               else info ++ " | Error: " ++ shortError e
  let st2 := { st with posts_failed := st.posts_failed + 1,
                       last_x_api_status := "❌ Failed (" ++ shortError e ++ ")",
                       last_x_api_timestamp := some ts }
  save_state (add_activity now "X Post" "❌ Failed" info2 st2)

/-- The `post_params` dict assembled at lines 266-272: text always, media
ids when any were uploaded, and the reply target when truthy. -/
def build_params (text_content : String) (media_ids_v1 : List String)
    (reply_to_x_id : Option String) : TweetParams :=
  { text := text_content, mediaIds := media_ids_v1,
    inReplyTo := if optStrTruthy reply_to_x_id then reply_to_x_id else none }

/-- `post_to_x` (lines 209-313).  Returns the tweet id or `None`, the final
state, and the outbound network calls made. -/
def post_to_x (env : XEnv) (text_content : String)
    (discord_media_attachments : List Attachment) (reply_to_x_id : Option String)
    (discord_message_id : Option Nat) (st : St) : PubResult :=
  if !(env.clientV2 && env.apiV1) then
    { result := none,
      st := add_activity env.now "X Post" "❌ Failed"
              ("Discord ID: " ++ pyStr discord_message_id
                ++ " | Error: X Client Not Initialized") st,
      calls := [] }
  else
    let info := statusDetail discord_message_id
    let st1 := { st with posts_attempted := st.posts_attempted + 1 }
    match media_relay env discord_media_attachments 0 [] with
    | (calls, Except.error e) =>
        { result := none, st := failPath env.now e info env.now st1, calls := calls }
    | (calls, Except.ok media_ids_v1) =>
        let post_params := build_params text_content media_ids_v1 reply_to_x_id
        match env.createTweet post_params with
        | Except.error e =>
            { result := none, st := failPath env.now e info env.now st1,
              calls := calls ++ [NetCall.createTweet post_params] }
        | Except.ok new_tweet_id =>
            let st2 := { st1 with posts_succeeded := st1.posts_succeeded + 1,
                                  last_x_api_status := "✅ Success",
                                  last_x_api_timestamp := some env.now }
            { result := some new_tweet_id,
              st := save_state (add_activity env.now "X Post" "✅ Success"
                      (info ++ " -> X ID: " ++ new_tweet_id) st2),
              calls := calls ++ [NetCall.createTweet post_params] }

/-! ### `on_message` (lines 432-494) -/

/-- An inbound Discord message event as `on_message` inspects it. -/
structure Msg where
  authorIsSelf : Bool
  channelId : Nat
  isThread : Bool
  parentId : Option Nat
  content : String
  attachments : List Attachment
  id : Nat

/-- Steps 4-6 of `on_message` (lines 473-494): skip empty messages, publish,
and save a mapping entry only for a successful initial post. -/
def publish_step (env : XEnv) (message : Msg) (post_as_reply_to : Option String)
    (is_initial_message : Bool) (st : St) : PubResult :=
  if message.content == "" && message.attachments.isEmpty then
    { result := none,
      st := add_activity env.now "Info" "⚪ Skipped"
              ("Discord ID: " ++ toString message.id ++ " - Empty message") st,
      calls := [] }
  else
    let r := post_to_x env message.content message.attachments post_as_reply_to
               (some message.id) st
    match r.result with
    | some new_x_post_id =>
        if is_initial_message && (new_x_post_id != "") then
          { result := some new_x_post_id,
            st := save_mapping_entry (SrcId.intId message.id) new_x_post_id r.st,
            calls := r.calls }
        else
          { result := some new_x_post_id, st := r.st, calls := r.calls }
    | none => { result := none, st := r.st, calls := r.calls }

/-- The warning logged when a thread reply's root has no mapping
(line 464). -/
def ignored_reply_log (env : XEnv) (message : Msg) (origId : Nat) (st : St) : St :=
  add_activity env.now "Warning" "⚠️ Ignored Reply"
    ("Discord ID: " ++ toString message.id
      ++ " - Original X post mapping missing for thread " ++ toString origId) st

/-- `on_message` (lines 432-494): ignore self and out-of-scope messages;
for thread replies resolve the root mapping (dropping the message with a
warning when it is missing); then publish, saving a mapping entry only for a
successful initial post. -/
def on_message (target : Nat) (env : XEnv) (message : Msg) (st : St) : PubResult :=
  if message.authorIsSelf then { result := none, st := st, calls := [] }
  else
    let is_in_target_channel := message.channelId == target
    let is_in_target_thread := message.isThread && (message.parentId == some target)
    if !(is_in_target_channel || is_in_target_thread) then
      { result := none, st := st, calls := [] }
    else
      if is_in_target_thread then
        let original_discord_message_id := message.channelId
        match get_x_post_id (SrcId.intId original_discord_message_id) st with
        | some xid =>
            if xid != "" then publish_step env message (some xid) false st
            else
              { result := none,
                st := ignored_reply_log env message original_discord_message_id st,
                calls := [] }
        | none =>
            { result := none,
              st := ignored_reply_log env message original_discord_message_id st,
              calls := [] }
      else
        publish_step env message none true st

/-- The message is an initial post: in scope, authored by someone else, and
posted directly in the monitored root channel (lines 439-470). -/
def is_initial (target : Nat) (message : Msg) : Bool :=
  !message.authorIsSelf
    && !(message.isThread && (message.parentId == some target))
    && (message.channelId == target)

/-! ### The `state_lock` critical sections (static model for the
concurrency discipline claim) -/

/-- Classification of an operation performed while `state_lock` is held. -/
inductive CritOp
  | memOp
  | fileWrite
  | netWrite
deriving DecidableEq

/-- Every `with state_lock:` block of `main.py`, with the operations its
body performs.  `save_state` (lines 129-153) performs the whole persist
inside the lock: Replit-DB writes (network) on the hosted backend, or the
full-document file rewrite (`open` + `json.dump`) on the file backend.
Every other block only reads or writes the in-memory globals. -/
def critical_sections (usingReplitDb : Bool) : List (String × List CritOp) :=
  [("save_state",
      if usingReplitDb then [CritOp.memOp, CritOp.netWrite]
      else [CritOp.memOp, CritOp.fileWrite]),
   ("save_mapping_entry", [CritOp.memOp]),
   ("get_x_post_id", [CritOp.memOp]),
   ("add_activity", [CritOp.memOp]),
   ("post_to_x_attempted", [CritOp.memOp]),
   ("post_to_x_success", [CritOp.memOp]),
   ("post_to_x_failure", [CritOp.memOp]),
   ("route_api_status", [CritOp.memOp]),
   ("on_ready", [CritOp.memOp]),
   ("on_disconnect", [CritOp.memOp]),
   ("on_connect", [CritOp.memOp]),
   ("on_resumed", [CritOp.memOp])]

/-! ### Concrete instances used by the witness theorems -/

/-- The cold-start state: empty mapping, zero counters, empty activity log,
no state file yet. -/
def st0 : St :=
  { discord_message_to_x_post_map := [], posts_attempted := 0, posts_succeeded := 0,
    posts_failed := 0, last_x_api_status := "Unknown", last_x_api_timestamp := none,
    recent_activity := [], saved_doc := none, save_count := 0 }

/-- An oracle environment in which every remote call succeeds. -/
def envOk : XEnv :=
  { clientV2 := true, apiV1 := true,
    download := fun _ => Except.ok (),
    upload := fun a => Except.ok ("m-" ++ a.filename),
    createTweet := fun _ => Except.ok "123",
    now := 1000 }

/-- The same oracle but with the v2 client uninitialised
(`client_v2 is None`). -/
def envNoClient : XEnv :=
  { envOk with clientV2 := false }

/-- A tweepy API exception carrying a server message; `str(e)` leads with
the HTTP status line, so its first 70 characters differ from the API
message the code puts in the summary. -/
def exnTweepy : PyExn :=
  { name := "TweepyException", kind := PyKind.tweepy,
    message := "429 Too Many Requests Rate limit exceeded",
    apiMessages := ["Rate limit exceeded"] }

/-- An oracle whose tweet creation raises `exnTweepy`. -/
def envTweepyFail : XEnv :=
  { envOk with createTweet := fun _ => Except.error exnTweepy }

/-- A plain exception with a message and no API messages. -/
def exnGeneric : PyExn :=
  { name := "ConnectionError", kind := PyKind.generic,
    message := "connection reset by peer", apiMessages := [] }

/-- An oracle whose tweet creation raises `exnGeneric`. -/
def envGenericFail : XEnv :=
  { envOk with createTweet := fun _ => Except.error exnGeneric }

/-- Five concrete attachments, to witness the 4-attachment media cap. -/
def attsFive : List Attachment :=
  [{ filename := "a.png", size := 10, url := "u/a" },
   { filename := "b.png", size := 11, url := "u/b" },
   { filename := "c.png", size := 12, url := "u/c" },
   { filename := "d.png", size := 13, url := "u/d" },
   { filename := "e.png", size := 14, url := "u/e" }]

/-- A concrete initial message in the monitored channel (channel id 77). -/
def msgInitial : Msg :=
  { authorIsSelf := false, channelId := 77, isThread := false, parentId := none,
    content := "hello", attachments := [], id := 5 }

/-- A concrete reply in a thread under the monitored channel whose root
(thread id 41) has no mapping entry. -/
def msgOrphanReply : Msg :=
  { authorIsSelf := false, channelId := 41, isThread := true, parentId := some 77,
    content := "reply", attachments := [], id := 6 }

/-- A family of distinct concrete activity records, for the ring-buffer
witness. -/
def recA (i : Nat) : ActivityRec :=
  { timestamp := i, ty := "T", status := "S", details := toString i }

/-- The media ids `envOk` assigns, as a function of the attachment. -/
def uidOk : Attachment → String := fun a => "m-" ++ a.filename

/-! ### Helper lemmas -/

lemma post_to_x_map (env : XEnv) (t : String) (atts : List Attachment)
    (rto : Option String) (mid : Option Nat) (st : St) :
    (post_to_x env t atts rto mid st).st.discord_message_to_x_post_map
      = st.discord_message_to_x_post_map := by
  unfold post_to_x
  split
  · simp [add_activity]
  · split
    · simp [failPath, save_state, add_activity]
    · dsimp only
      split
      · simp [failPath, save_state, add_activity]
      · simp [save_state, add_activity]

/-! ### Claim theorems -/

/-- Claim C1: whenever `post_to_x` passes the client-initialisation check
and runs to completion (success or exception), `posts_attempted` is
incremented exactly once and exactly one of `posts_succeeded` /
`posts_failed` is incremented, so `attempted = succeeded + failed` is
preserved from any state in which it holds. -/
theorem post_to_x_counter_invariant (env : XEnv) (t : String) (atts : List Attachment)
    (rto : Option String) (mid : Option Nat) (st : St)
    (hc : env.clientV2 = true) (ha : env.apiV1 = true)
    (hinv : st.posts_attempted = st.posts_succeeded + st.posts_failed) :
    (post_to_x env t atts rto mid st).st.posts_attempted
        = (post_to_x env t atts rto mid st).st.posts_succeeded
          + (post_to_x env t atts rto mid st).st.posts_failed
    ∧ (post_to_x env t atts rto mid st).st.posts_attempted = st.posts_attempted + 1
    ∧ (((post_to_x env t atts rto mid st).st.posts_succeeded = st.posts_succeeded + 1
          ∧ (post_to_x env t atts rto mid st).st.posts_failed = st.posts_failed)
        ∨ ((post_to_x env t atts rto mid st).st.posts_failed = st.posts_failed + 1
          ∧ (post_to_x env t atts rto mid st).st.posts_succeeded = st.posts_succeeded)) := by
  unfold post_to_x
  rw [hc, ha]
  split
  · simp_all
  · split
    · refine ⟨?_, ?_, Or.inr ⟨?_, ?_⟩⟩ <;> simp [failPath, save_state, add_activity] <;> omega
    · dsimp only
      split
      · refine ⟨?_, ?_, Or.inr ⟨?_, ?_⟩⟩ <;> simp [failPath, save_state, add_activity] <;> omega
      · refine ⟨?_, ?_, Or.inl ⟨?_, ?_⟩⟩ <;> simp [save_state, add_activity] <;> omega

/-- Witness for C1: a concrete successful publish from the cold-start
state. -/
theorem post_to_x_counter_invariant_witness :
    (post_to_x envOk "hello" [] none (some 1) st0).st.posts_attempted
        = (post_to_x envOk "hello" [] none (some 1) st0).st.posts_succeeded
          + (post_to_x envOk "hello" [] none (some 1) st0).st.posts_failed
    ∧ (post_to_x envOk "hello" [] none (some 1) st0).st.posts_attempted
        = st0.posts_attempted + 1
    ∧ (((post_to_x envOk "hello" [] none (some 1) st0).st.posts_succeeded
          = st0.posts_succeeded + 1
          ∧ (post_to_x envOk "hello" [] none (some 1) st0).st.posts_failed
            = st0.posts_failed)
        ∨ ((post_to_x envOk "hello" [] none (some 1) st0).st.posts_failed
            = st0.posts_failed + 1
          ∧ (post_to_x envOk "hello" [] none (some 1) st0).st.posts_succeeded
            = st0.posts_succeeded)) :=
  post_to_x_counter_invariant envOk "hello" [] none (some 1) st0 rfl rfl rfl

/-- Claim C5: when a client failed to initialise (`client_v2` or `api_v1`
is `None`), `post_to_x` returns `None` immediately: no network call, and
none of the three counters moves (the mapping is also untouched). -/
theorem post_to_x_uninitialized (env : XEnv) (t : String) (atts : List Attachment)
    (rto : Option String) (mid : Option Nat) (st : St)
    (h : env.clientV2 = false ∨ env.apiV1 = false) :
    (post_to_x env t atts rto mid st).result = none
    ∧ (post_to_x env t atts rto mid st).calls = []
    ∧ (post_to_x env t atts rto mid st).st.posts_attempted = st.posts_attempted
    ∧ (post_to_x env t atts rto mid st).st.posts_succeeded = st.posts_succeeded
    ∧ (post_to_x env t atts rto mid st).st.posts_failed = st.posts_failed
    ∧ (post_to_x env t atts rto mid st).st.discord_message_to_x_post_map
        = st.discord_message_to_x_post_map := by
  have hcond : (!(env.clientV2 && env.apiV1)) = true := by
    rcases h with h | h <;> simp [h]
  unfold post_to_x
  rw [hcond]
  simp [add_activity]

/-- Witness for C5: concrete call with the v2 client uninitialised. -/
theorem post_to_x_uninitialized_witness :
    (post_to_x envNoClient "hello" [] none (some 1) st0).result = none
    ∧ (post_to_x envNoClient "hello" [] none (some 1) st0).calls = []
    ∧ (post_to_x envNoClient "hello" [] none (some 1) st0).st.posts_attempted
        = st0.posts_attempted
    ∧ (post_to_x envNoClient "hello" [] none (some 1) st0).st.posts_succeeded
        = st0.posts_succeeded
    ∧ (post_to_x envNoClient "hello" [] none (some 1) st0).st.posts_failed
        = st0.posts_failed
    ∧ (post_to_x envNoClient "hello" [] none (some 1) st0).st.discord_message_to_x_post_map
        = st0.discord_message_to_x_post_map :=
  post_to_x_uninitialized envNoClient "hello" [] none (some 1) st0 (Or.inl rfl)

lemma mapLookup_mapInsert (m : List (String × String)) (k v : String) :
    mapLookup (mapInsert m k v) k = some v := by
  induction m with
  | nil => simp [mapInsert, mapLookup]
  | cons p rest ih =>
    obtain ⟨k', v'⟩ := p
    by_cases h : k' = k
    · subst h
      simp [mapInsert, mapLookup]
    · simp [mapInsert, mapLookup, h, ih]

/-- Claim C10: both ends of the store interface normalise keys with
`str(...)`: `save_mapping_entry` stores under `str(id)` and
`get_x_post_id` looks up `str(id)`, so after saving under an id, the lookup
succeeds whether the id is supplied as the integer or as its string form. -/
theorem mapping_key_normalization (st : St) (v : String) (n : Nat) (s : String) :
    get_x_post_id (SrcId.intId n) (save_mapping_entry (SrcId.intId n) v st) = some v
    ∧ get_x_post_id (SrcId.strId (toString n)) (save_mapping_entry (SrcId.intId n) v st) = some v
    ∧ get_x_post_id (SrcId.intId n) (save_mapping_entry (SrcId.strId (toString n)) v st) = some v
    ∧ get_x_post_id (SrcId.strId s) (save_mapping_entry (SrcId.strId s) v st) = some v := by
  refine ⟨?_, ?_, ?_, ?_⟩ <;>
    simp [get_x_post_id, save_mapping_entry, save_state, idStr, mapLookup_mapInsert]

lemma decode_encode_map (l : List (String × String)) :
    List.filterMap
      ((fun p => match p.2 with
          | JVal.str s => some (p.1, s)
          | _ => none) ∘ fun p => (p.1, JVal.str p.2)) l = l := by
  induction l with
  | nil => rfl
  | cons p rest ih =>
    simp only [List.filterMap_cons, Function.comp]
    simp [ih]

/-- Claim C6: persisting the file-backed state with `save_state` and
reloading it with `load_state` restores an equal mapping and equal
`posts_attempted`, `posts_succeeded`, `posts_failed` counters. -/
theorem save_load_round_trip (st : St) :
    load_state (save_state st).saved_doc
      = (st.discord_message_to_x_post_map, st.posts_attempted,
         st.posts_succeeded, st.posts_failed) := by
  simp [save_state, load_state, state_doc, jGet, decodeMapField, decodeNumField,
        decode_encode_map]

lemma activityRec_eta (e : ActivityRec) :
    ({ timestamp := e.timestamp, ty := e.ty, status := e.status, details := e.details }
      : ActivityRec) = e := rfl

lemma take_append_take_ten (l m : List ActivityRec) :
    (l ++ m.take 10).take 10 = (l ++ m).take 10 := by
  have hmin : min (10 - l.length) 10 = 10 - l.length := by omega
  rw [List.take_append_eq_append_take, List.take_append_eq_append_take,
      List.take_take, hmin]

lemma fold_add_cons (e : ActivityRec) (es : List ActivityRec) (st : St) :
    fold_add (e :: es) st
      = fold_add es (add_activity e.timestamp e.ty e.status e.details st) := by
  simp [fold_add]

lemma add_activity_activity (n : Nat) (t s d : String) (st : St) :
    (add_activity n t s d st).recent_activity
      = (({ timestamp := n, ty := t, status := s, details := d } : ActivityRec)
          :: st.recent_activity).take 10 := rfl

lemma fold_add_activity (es : List ActivityRec) (st : St)
    (h : st.recent_activity.length ≤ 10) :
    (fold_add es st).recent_activity
      = (es.reverse ++ st.recent_activity).take 10 := by
  induction es generalizing st with
  | nil =>
    simp [fold_add, List.take_of_length_le h]
  | cons e rest ih =>
    rw [fold_add_cons]
    have h2 : ((add_activity e.timestamp e.ty e.status e.details st).recent_activity).length
        ≤ 10 := by
      rw [add_activity_activity]
      simp
    rw [ih _ h2, add_activity_activity, activityRec_eta, take_append_take_ten]
    simp [List.append_assoc]

/-- Claim C7: the activity log (a `deque(maxlen=10)` written through
`add_activity` and snapshotted newest-first) never exceeds 10 records, the
record just added is at index 0, the effect of a batch of insertions is the
reversed batch prepended and clipped to 10, and after capacity + 1
insertions the oldest original record has been evicted. -/
theorem activity_log_ring_invariants :
    (∀ (n : Nat) (t s d : String) (st : St),
        ((add_activity n t s d st).recent_activity).length ≤ 10)
    ∧ (∀ (n : Nat) (t s d : String) (st : St),
        ((add_activity n t s d st).recent_activity).head?
          = some { timestamp := n, ty := t, status := s, details := d })
    ∧ (∀ (es : List ActivityRec) (st : St), st.recent_activity.length ≤ 10 →
        (fold_add es st).recent_activity = (es.reverse ++ st.recent_activity).take 10)
    ∧ (∀ (e0 : ActivityRec) (es : List ActivityRec) (st : St),
        st.recent_activity.length ≤ 10 → es.length = 10 → e0 ∉ es →
        (fold_add es (add_activity e0.timestamp e0.ty e0.status e0.details st)).recent_activity
            = es.reverse
        ∧ e0 ∉ (fold_add es
            (add_activity e0.timestamp e0.ty e0.status e0.details st)).recent_activity) := by
  refine ⟨?_, ?_, ?_, ?_⟩
  · intro n t s d st
    rw [add_activity_activity]
    simp
  · intro n t s d st
    rfl
  · exact fun es st h => fold_add_activity es st h
  · intro e0 es st h1 h2 h3
    have h2' : ((add_activity e0.timestamp e0.ty e0.status e0.details st).recent_activity).length
        ≤ 10 := by
      rw [add_activity_activity]
      simp
    have heq := fold_add_activity es _ h2'
    rw [add_activity_activity, activityRec_eta, take_append_take_ten] at heq
    have hlen : es.reverse.length = 10 := by simp [h2]
    have hfin : (fold_add es
        (add_activity e0.timestamp e0.ty e0.status e0.details st)).recent_activity
        = es.reverse := by
      rw [heq, List.take_append_eq_append_take, hlen]
      simp [List.take_of_length_le (le_of_eq hlen)]
    refine ⟨hfin, ?_⟩
    rw [hfin, List.mem_reverse]
    exact h3

/-- Witness for C7: eleven concrete insertions into the cold-start log;
the first record is gone and the last ten stand newest-first. -/
theorem activity_log_ring_invariants_witness :
    (fold_add [recA 1, recA 2, recA 3, recA 4, recA 5, recA 6, recA 7, recA 8, recA 9, recA 10]
        (add_activity (recA 0).timestamp (recA 0).ty (recA 0).status (recA 0).details
          st0)).recent_activity
        = [recA 1, recA 2, recA 3, recA 4, recA 5, recA 6, recA 7, recA 8, recA 9,
           recA 10].reverse
    ∧ recA 0 ∉ (fold_add [recA 1, recA 2, recA 3, recA 4, recA 5, recA 6, recA 7, recA 8,
        recA 9, recA 10]
        (add_activity (recA 0).timestamp (recA 0).ty (recA 0).status (recA 0).details
          st0)).recent_activity :=
  activity_log_ring_invariants.2.2.2 (recA 0)
    [recA 1, recA 2, recA 3, recA 4, recA 5, recA 6, recA 7, recA 8, recA 9, recA 10]
    st0 (by decide) (by decide) (by decide)

lemma media_relay_take (env : XEnv) (atts : List Attachment) (c : Nat) (acc : List String) :
    media_relay env atts c acc = media_relay env (atts.take (4 - c)) c acc := by
  induction atts generalizing c acc with
  | nil => simp
  | cons a rest ih =>
    by_cases hc : 4 ≤ c
    · have h0 : 4 - c = 0 := by omega
      rw [h0]
      simp [media_relay, hc]
    · have h1 : 4 - c = (4 - (c + 1)) + 1 := by omega
      rw [h1, List.take_succ_cons]
      show media_relay env (a :: rest) c acc
          = media_relay env (a :: rest.take (4 - (c + 1))) c acc
      rw [media_relay, media_relay]
      rw [if_neg hc, if_neg hc]
      cases env.download a with
      | error e => rfl
      | ok u =>
        cases env.upload a with
        | error e => rfl
        | ok mid =>
          dsimp only
          rw [ih]

lemma media_relay_calls_mem (env : XEnv) (atts : List Attachment) (c : Nat)
    (acc : List String) (x : NetCall) (hx : x ∈ (media_relay env atts c acc).1) :
    ∃ a ∈ atts, x = NetCall.download a.url ∨ x = NetCall.upload a.filename := by
  induction atts generalizing c acc with
  | nil => simp [media_relay] at hx
  | cons a rest ih =>
    by_cases hc : 4 ≤ c
    · rw [media_relay, if_pos hc] at hx
      simp at hx
    · rw [media_relay, if_neg hc] at hx
      cases hd : env.download a with
      | error e =>
        rw [hd] at hx
        simp at hx
        exact ⟨a, by simp, Or.inl hx⟩
      | ok u =>
        rw [hd] at hx
        cases hu : env.upload a with
        | error e =>
          rw [hu] at hx
          simp at hx
          rcases hx with h | h
          · exact ⟨a, by simp, Or.inl h⟩
          · exact ⟨a, by simp, Or.inr h⟩
        | ok mid =>
          rw [hu] at hx
          dsimp only at hx
          rcases List.mem_cons.mp hx with h | h
          · exact ⟨a, by simp, Or.inl h⟩
          · rcases List.mem_cons.mp h with h2 | h2
            · exact ⟨a, by simp, Or.inr h2⟩
            · rcases ih (c + 1) (acc ++ [mid]) h2 with ⟨b, hb, hor⟩
              exact ⟨b, by simp [hb], hor⟩

lemma media_relay_all_ok (env : XEnv) (uid : Attachment → String) :
    ∀ (atts : List Attachment) (c : Nat) (acc : List String),
    (∀ a ∈ atts, env.download a = Except.ok () ∧ env.upload a = Except.ok (uid a)) →
    atts.length ≤ 4 - c →
    media_relay env atts c acc = (relayCalls atts, Except.ok (acc ++ atts.map uid)) := by
  intro atts
  induction atts with
  | nil => intro c acc h hlen; simp [media_relay, relayCalls]
  | cons a rest ih =>
    intro c acc h hlen
    have hc : ¬ 4 ≤ c := by
      simp at hlen
      omega
    have ha := h a (by simp)
    rw [media_relay, if_neg hc, ha.1, ha.2]
    dsimp only
    rw [ih (c + 1) (acc ++ [a |> uid])
        (fun b hb => h b (by simp [hb])) (by simp at hlen ⊢; omega)]
    simp [relayCalls, List.append_assoc]

/-- Claim C4: the media relay inside `post_to_x` behaves on any attachment
list exactly as on its first four entries; every download/upload call it
makes names one of the first four attachments (so attachments past the
fourth trigger no network call); and when the first four all succeed the
calls are download-then-upload per attachment in input order and the
media-id list is the ordered image of the first four. -/
theorem media_relay_first_four (env : XEnv) (atts : List Attachment) :
    media_relay env atts 0 [] = media_relay env (atts.take 4) 0 []
    ∧ (∀ x ∈ (media_relay env atts 0 []).1,
        ∃ a ∈ atts.take 4, x = NetCall.download a.url ∨ x = NetCall.upload a.filename)
    ∧ (∀ uid : Attachment → String,
        (∀ a ∈ atts.take 4,
            env.download a = Except.ok () ∧ env.upload a = Except.ok (uid a)) →
        media_relay env atts 0 []
          = (relayCalls (atts.take 4), Except.ok ((atts.take 4).map uid))) := by
  have ht := media_relay_take env atts 0 []
  refine ⟨ht, ?_, ?_⟩
  · intro x hx
    rw [ht] at hx
    exact media_relay_calls_mem env (atts.take 4) 0 [] x hx
  · intro uid h
    rw [ht, media_relay_all_ok env uid (atts.take 4) 0 [] h
        (by rw [List.length_take]; omega)]
    simp

/-- Witness for C4: five concrete attachments `[a,b,c,d,e]` under the
all-success oracle; only `[a,b,c,d]` are processed, in order. -/
theorem media_relay_first_four_witness :
    media_relay envOk attsFive 0 [] = media_relay envOk (attsFive.take 4) 0 []
    ∧ media_relay envOk attsFive 0 []
        = (relayCalls (attsFive.take 4), Except.ok ((attsFive.take 4).map uidOk)) :=
  ⟨(media_relay_first_four envOk attsFive).1,
   (media_relay_first_four envOk attsFive).2.2 uidOk (by decide)⟩

/-- Claim C3: a message in a thread under the monitored channel whose root
id has no mapping entry is dropped before any publish: no network call, no
counter movement, no mapping or persistence change, and exactly one Warning
activity record is added. -/
theorem on_message_unmapped_thread (target : Nat) (env : XEnv) (message : Msg) (st : St)
    (hself : message.authorIsSelf = false)
    (hth : message.isThread = true)
    (hpar : message.parentId = some target)
    (hmap : mapLookup st.discord_message_to_x_post_map (toString message.channelId) = none) :
    (on_message target env message st).calls = []
    ∧ (on_message target env message st).result = none
    ∧ (on_message target env message st).st.posts_attempted = st.posts_attempted
    ∧ (on_message target env message st).st.posts_succeeded = st.posts_succeeded
    ∧ (on_message target env message st).st.posts_failed = st.posts_failed
    ∧ (on_message target env message st).st.discord_message_to_x_post_map
        = st.discord_message_to_x_post_map
    ∧ (on_message target env message st).st.save_count = st.save_count
    ∧ (on_message target env message st).st.recent_activity
        = (({ timestamp := env.now, ty := "Warning", status := "⚠️ Ignored Reply",
              details := "Discord ID: " ++ toString message.id
                ++ " - Original X post mapping missing for thread "
                ++ toString message.channelId } : ActivityRec)
            :: st.recent_activity).take 10 := by
  simp [on_message, hself, hth, hpar, get_x_post_id, idStr, hmap,
        ignored_reply_log, add_activity]

/-- Witness for C3: a concrete reply in a thread (root 41) with an empty
mapping store. -/
theorem on_message_unmapped_thread_witness :
    (on_message 77 envOk msgOrphanReply st0).calls = []
    ∧ (on_message 77 envOk msgOrphanReply st0).result = none
    ∧ (on_message 77 envOk msgOrphanReply st0).st.posts_attempted = st0.posts_attempted
    ∧ (on_message 77 envOk msgOrphanReply st0).st.posts_succeeded = st0.posts_succeeded
    ∧ (on_message 77 envOk msgOrphanReply st0).st.posts_failed = st0.posts_failed
    ∧ (on_message 77 envOk msgOrphanReply st0).st.discord_message_to_x_post_map
        = st0.discord_message_to_x_post_map
    ∧ (on_message 77 envOk msgOrphanReply st0).st.save_count = st0.save_count
    ∧ (on_message 77 envOk msgOrphanReply st0).st.recent_activity
        = (({ timestamp := envOk.now, ty := "Warning", status := "⚠️ Ignored Reply",
              details := "Discord ID: " ++ toString msgOrphanReply.id
                ++ " - Original X post mapping missing for thread "
                ++ toString msgOrphanReply.channelId } : ActivityRec)
            :: st0.recent_activity).take 10 :=
  on_message_unmapped_thread 77 envOk msgOrphanReply st0 rfl rfl rfl rfl

lemma publish_step_spec (env : XEnv) (message : Msg) (rto : Option String)
    (init : Bool) (st : St) :
    (publish_step env message rto init st).st.discord_message_to_x_post_map
      = match (publish_step env message rto init st).result with
        | some xid =>
            if init = true ∧ xid ≠ "" then
              mapInsert st.discord_message_to_x_post_map (toString message.id) xid
            else st.discord_message_to_x_post_map
        | none => st.discord_message_to_x_post_map := by
  unfold publish_step
  split
  · simp [add_activity]
  · dsimp only
    split
    · rename_i xid hx
      split
      · rename_i hcond
        simp at hcond
        simp [save_mapping_entry, save_state, idStr, post_to_x_map, hcond]
      · rename_i hcond
        simp at hcond
        by_cases hi : init = true
        · simp [post_to_x_map, hcond hi]
        · have : ¬(init = true ∧ ¬xid = "") := fun hand => hi hand.1
          simp [post_to_x_map, this]
    · simp [post_to_x_map]

/-- Claim C2: full characterisation of the mapping after `on_message`.
An entry (under `str(message.id)`) is created exactly when the message is
initial (posted directly in the monitored root channel by someone else) and
`post_to_x` returned a (truthy) remote post id; in every other case —
threaded replies in particular, whether their publish succeeds or fails —
the mapping is unchanged. -/
theorem on_message_mapping (target : Nat) (env : XEnv) (message : Msg) (st : St) :
    (on_message target env message st).st.discord_message_to_x_post_map
      = match (on_message target env message st).result with
        | some xid =>
            if is_initial target message = true ∧ xid ≠ "" then
              mapInsert st.discord_message_to_x_post_map (toString message.id) xid
            else st.discord_message_to_x_post_map
        | none => st.discord_message_to_x_post_map := by
  unfold on_message
  split
  · rfl
  · rename_i hself
    dsimp only
    split
    · rfl
    · rename_i hguard
      split
      · rename_i hth
        have hinit : is_initial target message = false := by
          simp [is_initial, hth]
        split
        · rename_i xid hx
          split
          · rw [publish_step_spec]
            cases hres : (publish_step env message (some xid) false st).result with
            | none => simp [hres]
            | some y => simp [hres, hinit]
          · simp [ignored_reply_log, add_activity]
        · simp [ignored_reply_log, add_activity]
      · rename_i hth
        have hself' : message.authorIsSelf = false := by simpa using hself
        have hth' : (message.isThread && (message.parentId == some target)) = false := by
          simpa using hth
        have hor : ((message.channelId == target)
            || (message.isThread && (message.parentId == some target))) = true := by
          by_contra hno
          have hfalse : ((message.channelId == target)
              || (message.isThread && (message.parentId == some target))) = false := by
            simpa using hno
          exact hguard (by rw [hfalse]; rfl)
        have hch : (message.channelId == target) = true := by
          rw [hth'] at hor
          simpa using hor
        have hinit : is_initial target message = true := by
          simp [is_initial, hself', hth', hch]
        rw [publish_step_spec]
        cases hres : (publish_step env message none true st).result with
        | none => simp [hres]
        | some y => simp [hres, hinit]

lemma leadsWith_append (p t : List Char) : leadsWith p (p ++ t) = true := by
  induction p with
  | nil => rfl
  | cons a as ih => simp [leadsWith, ih]

lemma occursIn_of_leadsWith (p s : List Char) (h : leadsWith p s = true) :
    occursIn p s = true := by
  cases s with
  | nil => simpa [occursIn] using h
  | cons b bs => simp [occursIn, h]

lemma occursIn_append_left (p l s : List Char) (h : occursIn p s = true) :
    occursIn p (l ++ s) = true := by
  induction l with
  | nil => simpa using h
  | cons a as ih => simp [occursIn, ih]

lemma occursIn_mid (p l r : List Char) : occursIn p (l ++ (p ++ r)) = true :=
  occursIn_append_left p l _ (occursIn_of_leadsWith p _ (leadsWith_append p r))

lemma strContains_of_decomp (s a p b : String)
    (h : s.data = a.data ++ p.data ++ b.data) : strContains s p = true := by
  unfold strContains
  rw [h, List.append_assoc]
  exact occursIn_mid p.data a.data b.data

lemma shortError_contains_name (a : String) (e : PyExn) :
    strContains (a ++ shortError e) e.name = true := by
  by_cases hu : usesApiMessages e = true
  · exact strContains_of_decomp _ a e.name (": " ++ e.apiMessages.headD "")
      (by simp [shortError, hu, String.data_append, List.append_assoc])
  · by_cases hl : (replaceNewlines e.message).length = 0
    · exact strContains_of_decomp _ a e.name ""
        (by simp [shortError, hu, hl, String.data_append])
    · have hpos : 0 < (replaceNewlines e.message).length := Nat.pos_of_ne_zero hl
      exact strContains_of_decomp _ a e.name
        (": " ++ strTake (replaceNewlines e.message) 70 ++ "...")
        (by simp [shortError, hu, hpos, String.data_append, List.append_assoc])

lemma shortError_contains_message (a : String) (e : PyExn)
    (hu : usesApiMessages e = false)
    (hl : (replaceNewlines e.message).length ≠ 0) :
    strContains (a ++ shortError e) (strTake (replaceNewlines e.message) 70) = true := by
  have hpos : 0 < (replaceNewlines e.message).length := Nat.pos_of_ne_zero hl
  exact strContains_of_decomp _ (a ++ (e.name ++ ": "))
    (strTake (replaceNewlines e.message) 70) "..."
    (by simp [shortError, hu, hpos, String.data_append, List.append_assoc])

lemma failPath_spec (now : Nat) (e : PyExn) (mid : Option Nat) (ts : Nat) (st : St)
    (hg : strContains (statusDetail mid) "Error:" = false) :
    (failPath now e (statusDetail mid) ts st).posts_failed = st.posts_failed + 1
    ∧ (failPath now e (statusDetail mid) ts st).posts_succeeded = st.posts_succeeded
    ∧ (failPath now e (statusDetail mid) ts st).posts_attempted = st.posts_attempted
    ∧ (failPath now e (statusDetail mid) ts st).save_count = st.save_count + 1
    ∧ (failPath now e (statusDetail mid) ts st).discord_message_to_x_post_map
        = st.discord_message_to_x_post_map
    ∧ (failPath now e (statusDetail mid) ts st).recent_activity
        = (({ timestamp := now, ty := "X Post", status := "❌ Failed",
              details := statusDetail mid ++ " | Error: " ++ shortError e } : ActivityRec)
            :: st.recent_activity).take 10 := by
  refine ⟨?_, ?_, ?_, ?_, ?_, ?_⟩ <;> simp [failPath, save_state, add_activity, hg]

/-- Claim C8 (amended): whenever an exception is raised inside `post_to_x`
after the attempted increment (media download/upload, or the
`create_tweet` call), exactly one of each happens: `posts_failed` is
incremented, the state is persisted once, one Failure activity record is
added whose detail carries the error summary, and no mapping entry is
written.  The detail always contains the exception's type name; it contains
the first 70 characters of the newline-stripped `str(e)` only when the
exception is not a tweepy exception carrying API messages — for those, the
first API message is used instead (this is the correction forced by
`post_to_x_error_detail_cex`). -/
theorem post_to_x_failure_path (env : XEnv) (t : String) (atts : List Attachment)
    (rto : Option String) (mid : Option Nat) (st : St) (e : PyExn)
    (hc : env.clientV2 = true) (ha : env.apiV1 = true)
    (hg : strContains (statusDetail mid) "Error:" = false)
    (he : (media_relay env atts 0 []).2 = Except.error e
        ∨ ∃ mids, (media_relay env atts 0 []).2 = Except.ok mids
            ∧ env.createTweet (build_params t mids rto) = Except.error e) :
    (post_to_x env t atts rto mid st).result = none
    ∧ (post_to_x env t atts rto mid st).st.posts_failed = st.posts_failed + 1
    ∧ (post_to_x env t atts rto mid st).st.posts_succeeded = st.posts_succeeded
    ∧ (post_to_x env t atts rto mid st).st.posts_attempted = st.posts_attempted + 1
    ∧ (post_to_x env t atts rto mid st).st.save_count = st.save_count + 1
    ∧ (post_to_x env t atts rto mid st).st.discord_message_to_x_post_map
        = st.discord_message_to_x_post_map
    ∧ (post_to_x env t atts rto mid st).st.recent_activity
        = (({ timestamp := env.now, ty := "X Post", status := "❌ Failed",
              details := statusDetail mid ++ " | Error: " ++ shortError e } : ActivityRec)
            :: st.recent_activity).take 10
    ∧ strContains (statusDetail mid ++ " | Error: " ++ shortError e) e.name = true
    ∧ (usesApiMessages e = false → (replaceNewlines e.message).length ≠ 0 →
        strContains (statusDetail mid ++ " | Error: " ++ shortError e)
          (strTake (replaceNewlines e.message) 70) = true) := by
  have key : (post_to_x env t atts rto mid st).result = none
      ∧ (post_to_x env t atts rto mid st).st
          = failPath env.now e (statusDetail mid) env.now
              { st with posts_attempted := st.posts_attempted + 1 } := by
    unfold post_to_x
    rw [hc, ha]
    rcases hm : media_relay env atts 0 [] with ⟨calls, res⟩
    rcases he with he1 | ⟨mids, he2, htw⟩
    · rw [hm] at he1
      simp at he1
      subst he1
      simp [hm]
    · rw [hm] at he2
      simp at he2
      subst he2
      simp [hm, htw]
  obtain ⟨hres, hstate⟩ := key
  have hf := failPath_spec env.now e mid env.now
    { st with posts_attempted := st.posts_attempted + 1 } hg
  refine ⟨hres, ?_, ?_, ?_, ?_, ?_, ?_, ?_, ?_⟩
  · rw [hstate]; exact hf.1
  · rw [hstate]; exact hf.2.1
  · rw [hstate]; exact hf.2.2.1
  · rw [hstate]; exact hf.2.2.2.1
  · rw [hstate]; exact hf.2.2.2.2.1
  · rw [hstate]; exact hf.2.2.2.2.2
  · exact shortError_contains_name (statusDetail mid ++ " | Error: ") e
  · intro hu hl
    exact shortError_contains_message (statusDetail mid ++ " | Error: ") e hu hl

/-- Witness for C8: a concrete `create_tweet` failure with a plain
exception; `posts_failed` increments and the detail carries the truncated
message. -/
theorem post_to_x_failure_path_witness :
    (post_to_x envGenericFail "hi" [] none (some 5) st0).result = none
    ∧ (post_to_x envGenericFail "hi" [] none (some 5) st0).st.posts_failed
        = st0.posts_failed + 1
    ∧ strContains (statusDetail (some 5) ++ " | Error: " ++ shortError exnGeneric)
        (strTake (replaceNewlines exnGeneric.message) 70) = true := by
  have h := post_to_x_failure_path envGenericFail "hi" [] none (some 5) st0 exnGeneric
    rfl rfl (by decide) (Or.inr ⟨[], rfl, rfl⟩)
  exact ⟨h.1, h.2.1, h.2.2.2.2.2.2.2.2 (by decide) (by decide)⟩

/-- Counterexample for C8 as stated: a tweepy exception whose
`api_messages` is `["Rate limit exceeded"]` while `str(e)` is
`"429 Too Many Requests Rate limit exceeded"`.  The single Failure record's
detail uses the API message, and does not contain the first 70 characters
of the (newline-stripped) exception message, contradicting the claim's
"detail contains the exception type plus the first ~70 characters of its
message". -/
theorem post_to_x_error_detail_cex :
    (post_to_x envTweepyFail "hi" [] none (some 5) st0).st.recent_activity
        = [{ timestamp := 1000, ty := "X Post", status := "❌ Failed",
             details := "Discord ID: 5 | Error: TweepyException: Rate limit exceeded" }]
    ∧ strContains "Discord ID: 5 | Error: TweepyException: Rate limit exceeded"
        (strTake (replaceNewlines exnTweepy.message) 70) = false := by
  constructor
  · rfl
  · decide

/-- Counterexample for C9 as stated: the `with state_lock:` block of
`save_state` (lines 129-153) performs the whole persist — the full-document
file rewrite on the file backend, the Replit-DB network writes on the
hosted backend — while holding the lock, so the lock is held across
file/network I/O. -/
theorem save_state_lock_io_cex :
    ("save_state", [CritOp.memOp, CritOp.fileWrite]) ∈ critical_sections false
    ∧ ("save_state", [CritOp.memOp, CritOp.netWrite]) ∈ critical_sections true
    ∧ CritOp.fileWrite ∈ [CritOp.memOp, CritOp.fileWrite]
    ∧ CritOp.netWrite ∈ [CritOp.memOp, CritOp.netWrite]
    ∧ CritOp.fileWrite ≠ CritOp.memOp
    ∧ CritOp.netWrite ≠ CritOp.memOp := by decide

/-- Claim C9 (amended): every `state_lock` critical section other than
`save_state`'s performs only in-memory operations, while `save_state`'s
performs the persist (file write or Replit-DB network write) under the
lock. -/
theorem state_lock_discipline (b : Bool) :
    (∀ sec ∈ critical_sections b, sec.1 ≠ "save_state" → sec.2 = [CritOp.memOp])
    ∧ ("save_state",
        if b = true then [CritOp.memOp, CritOp.netWrite]
        else [CritOp.memOp, CritOp.fileWrite]) ∈ critical_sections b := by
  cases b <;> exact ⟨by decide, by decide⟩

/-- Witness for C9's amended theorem, at the `get_x_post_id` section of
the file-backend configuration. -/
theorem state_lock_discipline_witness :
    ("get_x_post_id", [CritOp.memOp]).2 = [CritOp.memOp]
    ∧ ("save_state", [CritOp.memOp, CritOp.fileWrite]) ∈ critical_sections false :=
  ⟨(state_lock_discipline false).1 ("get_x_post_id", [CritOp.memOp]) (by decide) (by decide),
   (state_lock_discipline false).2⟩
